import Mathlib

/-!
# Payment reconciliation core: shallow embedding

Shallow embedding of the payment reconciliation engine of this repository:

* the MD5-based Robokassa signature validator (`src/payments/robokassa.py`),
* the payment ledger (`src/tg_stars-main/services/repository.py`),
* the gateway status decoders (`src/tg_stars-main/payments/lolz_payment.py`,
  `src/tg_stars-main/payments/xrocet_payment.py`),
* one step of the reconciliation loop
  (`src/tg_stars-main/utils/payment_checker.py`).

Machine words are `Nat` with explicit reduction modulo `2^32`; Python dicts
become association lists; SQL tables become lists of rows with SQL semantics
(`SELECT ... fetchone` is the first matching row, `UPDATE` rewrites every
matching row); the fallible network layer is an oracle argument.
-/

namespace PaymentCore

/-! ## MD5 (`hashlib.md5`), executable over `Nat` bytes -/

/-- Reduce modulo `2^32`: 32-bit word arithmetic is `Nat` plus this mask. -/
def w32 (n : Nat) : Nat := n % 4294967296

/-- Bitwise complement on 32-bit words. -/
def not32 (n : Nat) : Nat := 4294967295 ^^^ w32 n

/-- Left rotation of a 32-bit word by `s` bits (`0 ≤ s ≤ 32`). -/
def rotl32 (x s : Nat) : Nat := w32 ((x <<< s) ||| (x >>> (32 - s)))

/-- UTF-8 encoding of one character, as `str.encode()` produces it. -/
def utf8Char (c : Char) : List Nat :=
  let n := c.toNat
  if n < 128 then [n]
  else if n < 2048 then [192 ||| (n >>> 6), 128 ||| (n &&& 63)]
  else if n < 65536 then
    [224 ||| (n >>> 12), 128 ||| ((n >>> 6) &&& 63), 128 ||| (n &&& 63)]
  else
    [240 ||| (n >>> 18), 128 ||| ((n >>> 12) &&& 63),
     128 ||| ((n >>> 6) &&& 63), 128 ||| (n &&& 63)]

/-- UTF-8 encoding of a string (`str.encode()`), as a list of byte values. -/
def utf8Encode (s : String) : List Nat := (s.data.map utf8Char).flatten

/-- The eight little-endian bytes of the 64-bit message bit length. -/
def lenBytes (n : Nat) : List Nat :=
  [n % 256, (n >>> 8) % 256, (n >>> 16) % 256, (n >>> 24) % 256,
   (n >>> 32) % 256, (n >>> 40) % 256, (n >>> 48) % 256, (n >>> 56) % 256]

/-- MD5 padding: append `0x80`, zero bytes up to 56 mod 64, then the
64-bit little-endian bit length. -/
def md5pad (msg : List Nat) : List Nat :=
  let l := msg.length
  msg ++ 128 :: List.replicate ((119 - l % 64) % 64) 0
      ++ lenBytes ((8 * l) % 18446744073709551616)

/-- Pack bytes into little-endian 32-bit words, four bytes at a time. -/
def leWords : List Nat → List Nat
  | b0 :: b1 :: b2 :: b3 :: rest =>
      (b0 ||| (b1 <<< 8) ||| (b2 <<< 16) ||| (b3 <<< 24)) :: leWords rest
  | _ => []

/-- Split a word list into 16-word blocks; the fuel argument is the list
length, which bounds the number of blocks. -/
def chunk16 : Nat → List Nat → List (List Nat)
  | 0, _ => []
  | _, [] => []
  | fuel + 1, ws => ws.take 16 :: chunk16 fuel (ws.drop 16)

/-- The 64 MD5 round constants `⌊|sin(i+1)| · 2^32⌋`. -/
def md5K : List Nat :=
  [3614090360, 3905402710, 606105819, 3250441966,
   4118548399, 1200080426, 2821735955, 4249261313,
   1770035416, 2336552879, 4294925233, 2304563134,
   1804603682, 4254626195, 2792965006, 1236535329,
   4129170786, 3225465664, 643717713, 3921069994,
   3593408605, 38016083, 3634488961, 3889429448,
   568446438, 3275163606, 4107603335, 1163531501,
   2850285829, 4243563512, 1735328473, 2368359562,
   4294588738, 2272392833, 1839030562, 4259657740,
   2763975236, 1272893353, 4139469664, 3200236656,
   681279174, 3936430074, 3572445317, 76029189,
   3654602809, 3873151461, 530742520, 3299628645,
   4096336452, 1126891415, 2878612391, 4237533241,
   1700485571, 2399980690, 4293915773, 2240044497,
   1873313359, 4264355552, 2734768916, 1309151649,
   4149444226, 3174756917, 718787259, 3951481745]

/-- The 64 MD5 per-round left-rotation amounts. -/
def md5S : List Nat :=
  [7, 12, 17, 22, 7, 12, 17, 22, 7, 12, 17, 22, 7, 12, 17, 22,
   5, 9, 14, 20, 5, 9, 14, 20, 5, 9, 14, 20, 5, 9, 14, 20,
   4, 11, 16, 23, 4, 11, 16, 23, 4, 11, 16, 23, 4, 11, 16, 23,
   6, 10, 15, 21, 6, 10, 15, 21, 6, 10, 15, 21, 6, 10, 15, 21]

/-- The four MD5 chaining words. -/
structure MD5State where
  a : Nat
  b : Nat
  c : Nat
  d : Nat
deriving Repr, DecidableEq

/-- The round-dependent MD5 mixing function. -/
def md5F (i b c d : Nat) : Nat :=
  if i < 16 then (b &&& c) ||| (not32 b &&& d)
  else if i < 32 then (d &&& b) ||| (not32 d &&& c)
  else if i < 48 then b ^^^ c ^^^ d
  else c ^^^ (b ||| not32 d)

/-- The round-dependent MD5 message-word index. -/
def md5G (i : Nat) : Nat :=
  if i < 16 then i
  else if i < 32 then (5 * i + 1) % 16
  else if i < 48 then (3 * i + 5) % 16
  else (7 * i) % 16

/-- One of the 64 MD5 rounds on message block `M`. -/
def md5Step (M : List Nat) (st : MD5State) (i : Nat) : MD5State :=
  let f := w32 (md5F i st.b st.c st.d + st.a + md5K.getD i 0 + M.getD (md5G i) 0)
  ⟨st.d, w32 (st.b + rotl32 f (md5S.getD i 0)), st.b, st.c⟩

/-- Process one 16-word block: 64 rounds, then add into the chaining state. -/
def md5Block (st : MD5State) (M : List Nat) : MD5State :=
  let r := (List.range 64).foldl (md5Step M) st
  ⟨w32 (st.a + r.a), w32 (st.b + r.b), w32 (st.c + r.c), w32 (st.d + r.d)⟩

/-- The MD5 initial chaining state. -/
def md5Init : MD5State := ⟨1732584193, 4023233417, 2562383102, 271733878⟩

/-- Lowercase hexadecimal digit. -/
def hexDigit (n : Nat) : Char :=
  if n < 10 then Char.ofNat (48 + n) else Char.ofNat (87 + n)

/-- Two lowercase hex digits of a byte. -/
def hexByte (n : Nat) : List Char := [hexDigit (n / 16 % 16), hexDigit (n % 16)]

/-- A 32-bit word as eight hex characters, little-endian byte order
(the order `hexdigest()` emits). -/
def wordLEHex (w : Nat) : List Char :=
  hexByte (w % 256) ++ hexByte ((w >>> 8) % 256)
    ++ hexByte ((w >>> 16) % 256) ++ hexByte ((w >>> 24) % 256)

/-- `hashlib.md5(s.encode()).hexdigest()`: the lowercase hex MD5 digest of
the UTF-8 encoding of `s`. -/
def md5hex (s : String) : String :=
  let ws := leWords (md5pad (utf8Encode s))
  let st := (chunk16 ws.length ws).foldl md5Block md5Init
  ⟨wordLEHex st.a ++ wordLEHex st.b ++ wordLEHex st.c ++ wordLEHex st.d⟩

/-! ## Robokassa signature validator (`src/payments/robokassa.py`) -/

/-- Python string comparison on the underlying character lists: code-point
lexicographic `≤`, with a proper prefix smaller than its extension. -/
def charListLeb : List Char → List Char → Bool
  | [], _ => true
  | _ :: _, [] => false
  | a :: as, b :: bs =>
      if a.toNat < b.toNat then true
      else if b.toNat < a.toNat then false
      else charListLeb as bs

/-- The order `sorted` sorts Python strings by: code-point lexicographic
comparison of the character sequences. -/
def strLe (a b : String) : Prop := charListLeb a.data b.data = true

instance instDecStrLe : DecidableRel strLe := fun a b =>
  inferInstanceAs (Decidable (charListLeb a.data b.data = true))

/-- `sorted(extra_params.keys())`: the keys of `extra_params` in ascending
(code-point lexicographic) order.  A Python dict is embedded as an
association list with distinct keys. -/
def sortedKeys (extra : List (String × String)) : List String :=
  List.insertionSort strLe (extra.map Prod.fst)

/-- Python dict indexing `extra_params[key]`: the value of the first entry
carrying the key (a dict's keys are unique, so the first is the only one). -/
def lookupValue (extra : List (String × String)) (k : String) : String :=
  match extra.find? (fun kv => kv.1 == k) with
  | some kv => kv.2
  | none => ""

/-- `str(extra_params[key]) for key in sorted(extra_params.keys())`: the
extra-parameter values in ascending key order. -/
def extraSignatureValues (extra : List (String × String)) : List String :=
  (sortedKeys extra).map (lookupValue extra)

/-- The colon-joined signature string
`MerchantLogin:Sum:InvId:Password[:value…]` built by
`calculate_signature`; `amount` is the rendering `str(amount)`. -/
def signatureString (merchant_login amount invoice_id password : String)
    (extra : List (String × String)) : String :=
  String.intercalate ":"
    ([merchant_login, amount, invoice_id, password] ++ extraSignatureValues extra)

/-- `RobokassaSignatureValidator.calculate_signature`: MD5 hex digest of the
colon-joined parts, the extra parameters appended in sorted key order. -/
def calculate_signature (merchant_login amount invoice_id password : String)
    (extra : List (String × String)) : String :=
  md5hex (signatureString merchant_login amount invoice_id password extra)

/-- `str.lower()` on one character: hex digests and signature strings are
ASCII, where lowering maps `A`–`Z` to `a`–`z` and fixes everything else. -/
def lowerChar (c : Char) : Char :=
  if 65 ≤ c.toNat && c.toNat ≤ 90 then Char.ofNat (c.toNat + 32) else c

/-- `str.lower()`: characterwise lowering of the underlying characters. -/
def strLower (s : String) : String := ⟨s.data.map lowerChar⟩

/-- `RobokassaSignatureValidator.verify_callback_signature`: recompute and
compare case-insensitively. -/
def verify_callback_signature
    (merchant_login amount invoice_id signature password : String)
    (extra : List (String × String)) : Bool :=
  strLower (calculate_signature merchant_login amount invoice_id password extra)
    == strLower signature

/-- `RobokassaConfig`: merchant credentials; the test passwords are optional
(`None` embedded as `none`; Python also treats `""` as absent). -/
structure RobokassaConfig where
  merchant_login : String
  password1 : String
  password2 : String
  test_password1 : Option String
  test_password2 : Option String
  use_sandbox : Bool
deriving Repr, DecidableEq

/-- `RobokassaConfig.get_password1`: the sandbox test password when the
sandbox is active and the test password is truthy, else `password1`. -/
def RobokassaConfig.get_password1 (c : RobokassaConfig) : String :=
  match c.use_sandbox, c.test_password1 with
  | true, some t => if t == "" then c.password1 else t
  | _, _ => c.password1

/-- `RobokassaConfig.get_password2`: the sandbox test password when the
sandbox is active and the test password is truthy, else `password2`. -/
def RobokassaConfig.get_password2 (c : RobokassaConfig) : String :=
  match c.use_sandbox, c.test_password2 with
  | true, some t => if t == "" then c.password2 else t
  | _, _ => c.password2

/-- `RobokassaPaymentHandler.verify_payment`: verification against the
primary password. -/
def verify_payment (c : RobokassaConfig)
    (merchant_login amount invoice_id signature : String)
    (extra : List (String × String)) : Bool :=
  verify_callback_signature merchant_login amount invoice_id signature
    c.get_password1 extra

/-- `RobokassaPaymentHandler.verify_payment_secondary`: verification against
the secondary password. -/
def verify_payment_secondary (c : RobokassaConfig)
    (merchant_login amount invoice_id signature : String)
    (extra : List (String × String)) : Bool :=
  verify_callback_signature merchant_login amount invoice_id signature
    c.get_password2 extra

/-- `RobokassaPaymentHandler.process_success_callback` (Result URL):
`(True, "OK"+invoice_id)` on a valid primary-password signature, else
`(False, "Invalid signature")`. -/
def process_success_callback (c : RobokassaConfig)
    (merchant_login amount invoice_id signature : String)
    (extra : List (String × String)) : Bool × String :=
  if verify_payment c merchant_login amount invoice_id signature extra then
    (true, "OK" ++ invoice_id)
  else
    (false, "Invalid signature")

/-- `RobokassaPaymentHandler.process_fail_callback` (Fail URL): verified
against the secondary password. -/
def process_fail_callback (c : RobokassaConfig)
    (merchant_login amount invoice_id signature : String)
    (extra : List (String × String)) : Bool × String :=
  if verify_payment_secondary c merchant_login amount invoice_id signature extra then
    (true, "FAIL")
  else
    (false, "Invalid signature")

/-- `RobokassaPaymentHandler.process_status_callback` (Check URL): verified
against the secondary password. -/
def process_status_callback (c : RobokassaConfig)
    (merchant_login amount invoice_id signature : String)
    (extra : List (String × String)) : Bool × String :=
  if verify_payment_secondary c merchant_login amount invoice_id signature extra then
    (true, "OK" ++ invoice_id)
  else
    (false, "Invalid signature")

/-! ## Gateway status decoders -/

/-- A generic adapter check result dict:
`{"success": …, "status": …, "error": …}`. -/
structure StatusResult where
  success : Bool
  status : Option String
  error : Option String
deriving Repr, DecidableEq

/-- A Lolz invoice-query response as the decoder observes it: the HTTP
status, and the provider `invoice.status` string when the body carries an
`invoice` object (`none` otherwise). -/
structure LolzCheckResponse where
  httpStatus : Nat
  invoice : Option String
deriving Repr, DecidableEq

/-- The response decoding of `LolzPayment.check_payment_status`: on HTTP 200
with an `invoice` object, success with status `"paid"` exactly when the
provider says `"paid"` and `"pending"` otherwise; on 200 without an
`invoice` object, on 404 (invoice not found) and on any other HTTP status, a
failure result.  A network exception likewise yields a failure result. -/
def lolz_check_payment_status (r : LolzCheckResponse) : StatusResult :=
  if r.httpStatus == 200 then
    match r.invoice with
    | some st =>
        { success := true,
          status := some (if st == "paid" then "paid" else "pending"),
          error := none }
    | none =>
        { success := false, status := none,
          error := some "Неожиданный формат ответа API" }
  else if r.httpStatus == 404 then
    { success := false, status := none, error := some "Инвойс не найден" }
  else
    { success := false, status := none,
      error := some ("Ошибка проверки статуса: " ++ toString r.httpStatus) }

/-- An XRocet invoice-query response as the decoder observes it: HTTP
status, the body `success` flag, `data.status` (the code defaults a missing
status to `"active"`), and whether `data.payments` is non-empty. -/
structure XRocetCheckResponse where
  httpStatus : Nat
  apiSuccess : Bool
  status : String
  hasPayments : Bool
deriving Repr, DecidableEq

/-- The response decoding of `XRocetPayment.check_payment`: `"paid"` when
payments exist, `"pending"` for an `"active"` invoice, `"expired"` for every
other provider status; any failure (non-200 HTTP status, `success: false`
body, or a network exception) yields `"pending"`. -/
def xrocet_check_payment (r : XRocetCheckResponse) : String :=
  if r.httpStatus == 200 then
    if r.apiSuccess then
      if r.hasPayments then "paid"
      else if r.status == "active" then "pending"
      else "expired"
    else "pending"
  else "pending"

/-! ## Payment ledger (`src/tg_stars-main/services/repository.py`)

The `payments` table is a list of rows (`invoice_id` carries a UNIQUE
constraint, but the embedding keeps full SQL semantics: `fetchone` takes the
first matching row, `UPDATE` rewrites every matching row), the `users` table
a list of `(telegram_id, balance)` pairs.  `REAL` amounts are embedded as
exact rationals and timestamps as integers. -/

/-- One row of the `payments` table. -/
structure PaymentRow where
  user_id : Nat
  payment_method : String
  amount : Rat
  fee_amount : Rat
  total_amount : Rat
  invoice_id : String
  payload_id : Option String
  status : String
  expires_at : Int
deriving Repr, DecidableEq

/-- The persistent store: the `payments` and `users` tables. -/
structure LedgerState where
  payments : List PaymentRow
  users : List (Nat × Rat)
deriving Repr, DecidableEq

/-- `SELECT * FROM payments WHERE invoice_id = ? AND status = 'pending'`,
`fetchone`: the first still-pending row for the invoice. -/
def pendingRow (st : LedgerState) (invoice_id : String) : Option PaymentRow :=
  st.payments.find? (fun r => r.invoice_id == invoice_id && r.status == "pending")

/-- `UPDATE users SET balance = balance + ? WHERE telegram_id = ?`: add the
amount to every row of the user. -/
def creditUser (users : List (Nat × Rat)) (uid : Nat) (amt : Rat) :
    List (Nat × Rat) :=
  users.map (fun u => if u.1 == uid then (u.1, u.2 + amt) else u)

/-- `Repository.process_successful_payment`: in one transaction, fetch the
invoice's row if it is still `'pending'` (otherwise return `None` and change
nothing), set the invoice's status to `'paid'`, and credit the row's
`amount` to the owner's balance; the fetched row is returned. -/
def process_successful_payment (st : LedgerState) (invoice_id : String) :
    Option PaymentRow × LedgerState :=
  match pendingRow st invoice_id with
  | none => (none, st)
  | some payment =>
      (some payment,
       { payments := st.payments.map (fun r =>
           if r.invoice_id == invoice_id then { r with status := "paid" } else r),
         users := creditUser st.users payment.user_id payment.amount })

/-- `Repository.update_payment_status`:
`UPDATE payments SET status = ? WHERE invoice_id = ? AND status != ?`,
returning `rowcount > 0`. -/
def update_payment_status (st : LedgerState) (invoice_id status : String) :
    Bool × LedgerState :=
  (st.payments.any (fun r => r.invoice_id == invoice_id && !(r.status == status)),
   { st with payments := st.payments.map (fun r =>
       if r.invoice_id == invoice_id && !(r.status == status) then
         { r with status := status }
       else r) })

/-- `Repository.get_pending_payments`:
`SELECT * FROM payments WHERE status = 'pending' AND expires_at > CURRENT_TIMESTAMP`. -/
def get_pending_payments (st : LedgerState) (now : Int) : List PaymentRow :=
  st.payments.filter (fun r => r.status == "pending" && decide (now < r.expires_at))

/-- The balance of the first `users` row with the given `telegram_id`. -/
def getBalance (st : LedgerState) (uid : Nat) : Option Rat :=
  (st.users.find? (fun u => u.1 == uid)).map Prod.snd

/-! ## One reconciliation step
(`PaymentChecker.process_single_payment`, `src/tg_stars-main/utils/payment_checker.py`) -/

/-- What a reconciliation step did, beyond its ledger effect. -/
inductive CheckerAction where
  | expiredNotified
  | expiredNoop
  | noHandler
  | checkFailed
  | settled
  | settledNoop
  | noAction
deriving Repr, DecidableEq

/-- The gateway identifiers with instantiated handlers
(`PaymentChecker.payment_handlers`). -/
def handlerNames : List String := ["lolz", "cryptobot", "xrocet", "crystalpay"]

/-- The correlation key passed to the handler:
`payload_id if payment_method == "cryptobot" and payload_id else invoice_id`
(an absent or empty payload id is falsy). -/
def checkId (payment : PaymentRow) : String :=
  match payment.payload_id with
  | some pid =>
      if payment.payment_method == "cryptobot" && !(pid == "") then pid
      else payment.invoice_id
  | none => payment.invoice_id

/-- Outcome of one reconciliation step: the resulting ledger, the
correlation key the gateway was queried with (`none` when no query was
made), and the action taken. -/
structure StepResult where
  state : LedgerState
  queried : Option String
  action : CheckerAction
deriving Repr, DecidableEq

/-- `PaymentChecker.process_single_payment` for one invoice of the current
cycle.  `now` is `datetime.now()`; `gw` is the status-result dict the
matching gateway handler returns for this cycle's query (for `"xrocet"` the
code wraps the handler's plain status as `{"success": True, "status": …}`,
discarding `gw.success`).  In order: a past `expires_at` expires the invoice
via the ledger before any gateway query; an unknown payment method is
skipped; a result without success changes nothing; a `"paid"` status settles
via `process_successful_payment`; anything else is left alone. -/
def process_single_payment (st : LedgerState) (payment : PaymentRow)
    (now : Int) (gw : StatusResult) : StepResult :=
  if decide (payment.expires_at < now) then
    let r := update_payment_status st payment.invoice_id "expired"
    ⟨r.2, none, if r.1 then .expiredNotified else .expiredNoop⟩
  else if !(handlerNames.contains payment.payment_method) then
    ⟨st, none, .noHandler⟩
  else
    let statusResult : StatusResult :=
      if payment.payment_method == "xrocet" then
        { success := true, status := gw.status, error := none }
      else gw
    if !statusResult.success then ⟨st, some (checkId payment), .checkFailed⟩
    else if statusResult.status == some "paid" then
      match process_successful_payment st payment.invoice_id with
      | (some _, st2) => ⟨st2, some (checkId payment), .settled⟩
      | (none, st2) => ⟨st2, some (checkId payment), .settledNoop⟩
    else ⟨st, some (checkId payment), .noAction⟩

/-- A concrete pending invoice: requested 100, fee 5, total 105. -/
def samplePending : PaymentRow :=
  { user_id := 7, payment_method := "lolz", amount := 100, fee_amount := 5,
    total_amount := 105, invoice_id := "inv1", payload_id := none,
    status := "pending", expires_at := 1000 }

/-- A concrete ledger: one pending invoice, its owner holding balance 50. -/
def sampleLedger : LedgerState :=
  { payments := [samplePending], users := [(7, 50)] }

/-- A concrete ledger whose only invoice is already `'paid'`. -/
def samplePaidLedger : LedgerState :=
  { payments := [{ samplePending with status := "paid" }], users := [(7, 150)] }

/-- A concrete merchant configuration with distinct primary and secondary
passwords and no sandbox. -/
def sampleConfig : RobokassaConfig :=
  { merchant_login := "m", password1 := "p1", password2 := "p2",
    test_password1 := none, test_password2 := none, use_sandbox := false }

/-! ## Ledger lemmas -/

/-- Looking a user up after `creditUser` is looking the user up first and
then applying the row update, because the update keeps every key. -/
lemma find?_creditUser (users : List (Nat × Rat)) (uid : Nat) (amt : Rat)
    (v : Nat) :
    (creditUser users uid amt).find? (fun u => u.1 == v)
      = (users.find? (fun u => u.1 == v)).map
          (fun u => if u.1 == uid then (u.1, u.2 + amt) else u) := by
  unfold creditUser
  rw [List.find?_map]
  have hpred : ((fun u : Nat × Rat => u.1 == v) ∘
      fun u : Nat × Rat => if u.1 == uid then (u.1, u.2 + amt) else u)
      = fun u : Nat × Rat => u.1 == v := by
    funext u
    by_cases h : u.1 = uid <;> simp [Function.comp, h]
  rw [hpred]

/-- Crediting a user moves the user's observed balance up by the amount. -/
lemma creditUser_balance (users : List (Nat × Rat)) (uid : Nat) (amt b : Rat)
    (hb : (users.find? (fun u => u.1 == uid)).map Prod.snd = some b) :
    ((creditUser users uid amt).find? (fun u => u.1 == uid)).map Prod.snd
      = some (b + amt) := by
  rw [find?_creditUser]
  cases hfind : users.find? (fun u => u.1 == uid) with
  | none => rw [hfind] at hb; simp at hb
  | some u0 =>
    rw [hfind] at hb
    have hkey : (u0.1 == uid) = true := by
      simpa using List.find?_some hfind
    have hb2 : u0.2 = b := by simpa using hb
    have heq : u0.1 = uid := by simpa using hkey
    simp [heq, hb2]

/-- Crediting a user leaves every other balance untouched. -/
lemma creditUser_other (users : List (Nat × Rat)) (uid v : Nat) (amt : Rat)
    (hv : v ≠ uid) :
    (creditUser users uid amt).find? (fun u => u.1 == v)
      = users.find? (fun u => u.1 == v) := by
  rw [find?_creditUser]
  cases hfind : users.find? (fun u => u.1 == v) with
  | none => rfl
  | some u0 =>
    have h1 : u0.1 = v := by simpa using List.find?_some hfind
    have hne : u0.1 ≠ uid := by rw [h1]; exact hv
    simp [hne]

/-- After a successful settlement every row of the invoice is `'paid'`. -/
lemma settle_marks_paid (st : LedgerState) (iid : String) (p : PaymentRow)
    (h : pendingRow st iid = some p) :
    ∀ r ∈ (process_successful_payment st iid).2.payments,
      r.invoice_id = iid → r.status = "paid" := by
  intro r hr hid
  unfold process_successful_payment at hr
  rw [h] at hr
  simp only [List.mem_map] at hr
  obtain ⟨r0, _, rfl⟩ := hr
  by_cases hc : r0.invoice_id = iid
  · simp [hc]
  · rw [if_neg (by simpa using hc)] at hid
    exact absurd hid hc

/-- After a successful settlement the invoice has no pending row left. -/
lemma pendingRow_settle (st : LedgerState) (iid : String) (p : PaymentRow)
    (h : pendingRow st iid = some p) :
    pendingRow (process_successful_payment st iid).2 iid = none := by
  unfold process_successful_payment
  rw [h]
  simp only [pendingRow]
  rw [List.find?_map]
  have : List.find?
      ((fun r : PaymentRow => r.invoice_id == iid && r.status == "pending") ∘
        fun r : PaymentRow =>
          if r.invoice_id == iid then { r with status := "paid" } else r)
      st.payments = none := by
    rw [List.find?_eq_none]
    intro x _
    by_cases hc : x.invoice_id = iid <;> simp [Function.comp, hc]
  rw [this]
  rfl

/-- Settlement adds the row's `amount` to the owner's observed balance. -/
lemma settle_balance (st : LedgerState) (iid : String) (p : PaymentRow)
    (b : Rat) (h : pendingRow st iid = some p)
    (hb : getBalance st p.user_id = some b) :
    getBalance (process_successful_payment st iid).2 p.user_id
      = some (b + p.amount) := by
  unfold process_successful_payment
  rw [h]
  unfold getBalance at hb ⊢
  exact creditUser_balance st.users p.user_id p.amount b hb

/-- C1: settling the same invoice twice credits once.  On a pending invoice
`process_successful_payment` returns the row, marks every row of the invoice
`'paid'` and adds the row's `amount` to the owner's balance; the second call
finds no pending row, returns `None` and leaves the whole ledger (invoice
and balances) unchanged. -/
theorem settle_twice_credits_once (st : LedgerState) (iid : String)
    (p : PaymentRow) (h : pendingRow st iid = some p) :
    (process_successful_payment st iid).1 = some p
    ∧ (∀ r ∈ (process_successful_payment st iid).2.payments,
        r.invoice_id = iid → r.status = "paid")
    ∧ (∀ b, getBalance st p.user_id = some b →
        getBalance (process_successful_payment st iid).2 p.user_id
          = some (b + p.amount))
    ∧ process_successful_payment (process_successful_payment st iid).2 iid
        = (none, (process_successful_payment st iid).2) := by
  refine ⟨?_, settle_marks_paid st iid p h,
    fun b hb => settle_balance st iid p b h hb, ?_⟩
  · unfold process_successful_payment
    rw [h]
  · have h2 := pendingRow_settle st iid p h
    rw [process_successful_payment.eq_def, h2]

/-- C1, concrete instance: the hypothesis holds for `sampleLedger` and the
conclusion follows by the theorem. -/
theorem settle_twice_credits_once_witness :
    pendingRow sampleLedger "inv1" = some samplePending
    ∧ ((process_successful_payment sampleLedger "inv1").1 = some samplePending
      ∧ (∀ r ∈ (process_successful_payment sampleLedger "inv1").2.payments,
          r.invoice_id = "inv1" → r.status = "paid")
      ∧ (∀ b, getBalance sampleLedger samplePending.user_id = some b →
          getBalance (process_successful_payment sampleLedger "inv1").2
            samplePending.user_id = some (b + samplePending.amount))
      ∧ process_successful_payment
            (process_successful_payment sampleLedger "inv1").2 "inv1"
          = (none, (process_successful_payment sampleLedger "inv1").2)) :=
  ⟨by decide,
   settle_twice_credits_once sampleLedger "inv1" samplePending (by decide)⟩

/-- C2: settlement credits exactly the `amount` field (the requested
amount), and—whenever the fee is non-zero—not the `total_amount`
(requested plus fee). -/
theorem settle_credits_amount_not_total (st : LedgerState) (iid : String)
    (p : PaymentRow) (b : Rat) (h : pendingRow st iid = some p)
    (hb : getBalance st p.user_id = some b) :
    getBalance (process_successful_payment st iid).2 p.user_id
      = some (b + p.amount)
    ∧ (p.fee_amount ≠ 0 → p.total_amount = p.amount + p.fee_amount →
        getBalance (process_successful_payment st iid).2 p.user_id
          ≠ some (b + p.total_amount)) := by
  refine ⟨settle_balance st iid p b h hb, fun hfee htot hc => ?_⟩
  rw [settle_balance st iid p b h hb] at hc
  simp only [Option.some_inj] at hc
  have : p.amount = p.total_amount := by linarith [hc]
  rw [htot] at this
  exact hfee (by linarith [this])

/-- C2, concrete instance: requested 100, fee 5, total 105, balance 50; the
balance becomes 150, not 155. -/
theorem settle_credits_amount_not_total_witness :
    pendingRow sampleLedger "inv1" = some samplePending
    ∧ getBalance sampleLedger samplePending.user_id = some 50
    ∧ (getBalance (process_successful_payment sampleLedger "inv1").2
          samplePending.user_id = some (50 + samplePending.amount)
      ∧ (samplePending.fee_amount ≠ 0 →
          samplePending.total_amount
            = samplePending.amount + samplePending.fee_amount →
          getBalance (process_successful_payment sampleLedger "inv1").2
            samplePending.user_id ≠ some (50 + samplePending.total_amount))) :=
  ⟨by decide, by decide,
   settle_credits_amount_not_total sampleLedger "inv1" samplePending 50
     (by decide) (by decide)⟩

/-- C6 counterexample: `update_payment_status` moves an invoice that is
already `'paid'` to `'expired'` and reports a change—the operation does not
require the invoice to still be pending, so a terminal status can regress. -/
theorem update_status_regresses_paid :
    (update_payment_status samplePaidLedger "inv1" "expired").1 = true
    ∧ (update_payment_status samplePaidLedger "inv1" "expired").2.payments.map
        PaymentRow.status = ["expired"] := by
  constructor <;> rfl

/-- C6 amended: `update_payment_status` rewrites to the target status every
row of the invoice whose status differs from the target—including a
`'paid'` row on target `'expired'`—returning `true` iff some row changed;
repeating the call with the same target is a no-op returning `false`. -/
theorem update_status_guard_and_noop (st : LedgerState) (iid target : String) :
    ((update_payment_status st iid target).1 = true
      ↔ ∃ r ∈ st.payments, r.invoice_id = iid ∧ r.status ≠ target)
    ∧ (∀ r ∈ (update_payment_status st iid target).2.payments,
        r.invoice_id = iid → r.status = target)
    ∧ update_payment_status (update_payment_status st iid target).2 iid target
        = (false, (update_payment_status st iid target).2) := by
  refine ⟨?_, ?_, ?_⟩
  · simp [update_payment_status, List.any_eq_true]
  · intro r hr hid
    simp only [update_payment_status, List.mem_map] at hr
    obtain ⟨r0, _, rfl⟩ := hr
    by_cases hc : (r0.invoice_id == iid && !(r0.status == target)) = true
    · simp [hc]
    · rw [if_neg (by simpa using hc)] at hid ⊢
      simp only [Bool.and_eq_true, beq_iff_eq, Bool.not_eq_true',
        beq_eq_false_iff_ne, not_and, not_not] at hc
      exact hc hid
  · have hrow : ∀ r : PaymentRow,
        ((if r.invoice_id == iid && !(r.status == target) then
            { r with status := target } else r).invoice_id == iid
          && !((if r.invoice_id == iid && !(r.status == target) then
            { r with status := target } else r).status == target)) = false := by
      intro r
      by_cases hc : (r.invoice_id == iid && !(r.status == target)) = true
      · simp [hc]
      · rw [if_neg (by simpa using hc)]
        simpa using hc
    simp only [update_payment_status, List.map_map, List.any_map,
      Prod.mk.injEq, LedgerState.mk.injEq]
    refine ⟨?_, ?_, trivial⟩
    · rw [List.any_eq_false]
      intro r _
      simpa [Function.comp] using hrow r
    · apply List.map_congr_left
      intro r _
      simp only [Function.comp]
      rw [if_neg (by simpa using hrow r)]

/-- C6 amended, concrete instance: the paid invoice is moved to `'expired'`
with `true`, and the repeated call is a `false` no-op. -/
theorem update_status_guard_and_noop_witness :
    ((update_payment_status samplePaidLedger "inv1" "expired").1 = true
      ↔ ∃ r ∈ samplePaidLedger.payments,
          r.invoice_id = "inv1" ∧ r.status ≠ "expired")
    ∧ (∀ r ∈ (update_payment_status samplePaidLedger "inv1" "expired").2.payments,
        r.invoice_id = "inv1" → r.status = "expired")
    ∧ update_payment_status
          (update_payment_status samplePaidLedger "inv1" "expired").2
          "inv1" "expired"
        = (false, (update_payment_status samplePaidLedger "inv1" "expired").2) :=
  update_status_guard_and_noop samplePaidLedger "inv1" "expired"

/-- C8: an invoice whose `expires_at` lies in the past when it is processed
is expired without consulting the gateway: no query is issued, the outcome
does not depend on what the gateway would have answered, balances are
untouched, and every row of the invoice ends up `'expired'`—never
`'paid'`. -/
theorem expired_invoice_never_settled (st : LedgerState) (payment : PaymentRow)
    (now : Int) (gw gw2 : StatusResult) (h : payment.expires_at < now) :
    (process_single_payment st payment now gw).queried = none
    ∧ process_single_payment st payment now gw
        = process_single_payment st payment now gw2
    ∧ (process_single_payment st payment now gw).state.users = st.users
    ∧ (∀ r ∈ (process_single_payment st payment now gw).state.payments,
        r.invoice_id = payment.invoice_id → r.status = "expired") := by
  have hd : decide (payment.expires_at < now) = true := by simpa using h
  refine ⟨?_, ?_, ?_, ?_⟩
  · simp [process_single_payment, hd]
  · simp [process_single_payment, hd]
  · simp [process_single_payment, hd, update_payment_status]
  · intro r hr hid
    simp only [process_single_payment, hd, if_true, update_payment_status,
      List.mem_map] at hr
    obtain ⟨r0, _, rfl⟩ := hr
    by_cases hc : (r0.invoice_id == payment.invoice_id
        && !(r0.status == "expired")) = true
    · simp [hc]
    · rw [if_neg (by simpa using hc)] at hid ⊢
      simp only [Bool.and_eq_true, beq_iff_eq, Bool.not_eq_true',
        beq_eq_false_iff_ne, not_and, not_not] at hc
      exact hc hid

/-- C8, concrete instance: the invoice expired at 1000 and is processed at
2000; even a gateway oracle announcing `paid` is not consulted. -/
theorem expired_invoice_never_settled_witness :
    samplePending.expires_at < 2000
    ∧ ((process_single_payment sampleLedger samplePending 2000
          ⟨true, some "paid", none⟩).queried = none
      ∧ process_single_payment sampleLedger samplePending 2000
            ⟨true, some "paid", none⟩
          = process_single_payment sampleLedger samplePending 2000
            ⟨false, none, none⟩
      ∧ (process_single_payment sampleLedger samplePending 2000
          ⟨true, some "paid", none⟩).state.users = sampleLedger.users
      ∧ (∀ r ∈ (process_single_payment sampleLedger samplePending 2000
            ⟨true, some "paid", none⟩).state.payments,
          r.invoice_id = samplePending.invoice_id → r.status = "expired")) :=
  ⟨by decide,
   expired_invoice_never_settled sampleLedger samplePending 2000
     ⟨true, some "paid", none⟩ ⟨false, none, none⟩ (by decide)⟩

/-- C9: when the gateway status check comes back without success for a
not-yet-expired invoice of a known non-xrocet gateway, the step performs no
ledger mutation at all: the resulting state is exactly the input state. -/
theorem failed_check_no_mutation (st : LedgerState) (payment : PaymentRow)
    (now : Int) (gw : StatusResult)
    (h1 : ¬ payment.expires_at < now)
    (h2 : handlerNames.contains payment.payment_method = true)
    (h3 : payment.payment_method ≠ "xrocet")
    (h4 : gw.success = false) :
    process_single_payment st payment now gw
      = ⟨st, some (checkId payment), CheckerAction.checkFailed⟩ := by
  have hd : decide (payment.expires_at < now) = false := by simpa using h1
  have hx : (payment.payment_method == "xrocet") = false := by simpa using h3
  have h2m : payment.payment_method ∈ handlerNames := by simpa using h2
  simp [process_single_payment, hd, h2m, hx, h4]

/-- C9, concrete instance: a lolz invoice, not yet expired, with a failing
status check (`success: false`): the ledger is returned unchanged. -/
theorem failed_check_no_mutation_witness :
    ¬ samplePending.expires_at < 500
    ∧ handlerNames.contains samplePending.payment_method = true
    ∧ samplePending.payment_method ≠ "xrocet"
    ∧ (StatusResult.mk false none (some "Ошибка соединения с API")).success
        = false
    ∧ process_single_payment sampleLedger samplePending 500
        ⟨false, none, some "Ошибка соединения с API"⟩
      = ⟨sampleLedger, some (checkId samplePending), CheckerAction.checkFailed⟩ :=
  ⟨by decide, by decide, by decide, by decide,
   failed_check_no_mutation sampleLedger samplePending 500
     ⟨false, none, some "Ошибка соединения с API"⟩
     (by decide) (by decide) (by decide) (by decide)⟩

/-! ## Signature lemmas -/

/-- The comparator is total. -/
lemma charListLeb_total : ∀ as bs : List Char,
    charListLeb as bs = true ∨ charListLeb bs as = true := by
  intro as
  induction as with
  | nil => intro bs; left; rfl
  | cons a as ih =>
    intro bs
    cases bs with
    | nil => right; rfl
    | cons b bs =>
      by_cases h1 : a.toNat < b.toNat
      · left
        simp [charListLeb, h1]
      · by_cases h2 : b.toNat < a.toNat
        · right
          simp [charListLeb, h1, h2]
        · cases ih bs with
          | inl h => left; simp [charListLeb, h1, h2, h]
          | inr h => right; simp [charListLeb, h1, h2, h]

/-- The comparator is transitive. -/
lemma charListLeb_trans : ∀ as bs cs : List Char,
    charListLeb as bs = true → charListLeb bs cs = true →
      charListLeb as cs = true := by
  intro as
  induction as with
  | nil => intro bs cs _ _; rfl
  | cons a as ih =>
    intro bs cs h1 h2
    cases bs with
    | nil => simp [charListLeb] at h1
    | cons b bs =>
      cases cs with
      | nil => simp [charListLeb] at h2
      | cons c cs =>
        by_cases hab : a.toNat < b.toNat <;> by_cases hbc : b.toNat < c.toNat
        · have hac : a.toNat < c.toNat := Nat.lt_trans hab hbc
          simp [charListLeb, hac]
        · by_cases hcb : c.toNat < b.toNat
          · simp [charListLeb, hbc, hcb] at h2
          · have hbceq : b.toNat = c.toNat := by omega
            have hac : a.toNat < c.toNat := hbceq ▸ hab
            simp [charListLeb, hac]
        · by_cases hba : b.toNat < a.toNat
          · simp [charListLeb, hab, hba] at h1
          · have habeq : a.toNat = b.toNat := by omega
            have hac : a.toNat < c.toNat := habeq ▸ hbc
            simp [charListLeb, hac]
        · by_cases hba : b.toNat < a.toNat
          · simp [charListLeb, hab, hba] at h1
          by_cases hcb : c.toNat < b.toNat
          · simp [charListLeb, hbc, hcb] at h2
          have h1t : charListLeb as bs = true := by
            simpa [charListLeb, hab, hba] using h1
          have h2t : charListLeb bs cs = true := by
            simpa [charListLeb, hbc, hcb] using h2
          have hac1 : ¬ a.toNat < c.toNat := by omega
          have hac2 : ¬ c.toNat < a.toNat := by omega
          simpa [charListLeb, hac1, hac2] using ih bs cs h1t h2t

/-- The comparator is antisymmetric. -/
lemma charListLeb_antisymm : ∀ as bs : List Char,
    charListLeb as bs = true → charListLeb bs as = true → as = bs := by
  intro as
  induction as with
  | nil =>
    intro bs _ h2
    cases bs with
    | nil => rfl
    | cons b bs => simp [charListLeb] at h2
  | cons a as ih =>
    intro bs h1 h2
    cases bs with
    | nil => simp [charListLeb] at h1
    | cons b bs =>
      by_cases hab : a.toNat < b.toNat
      · have hba : ¬ b.toNat < a.toNat := by omega
        simp [charListLeb, hab, hba] at h2
      · by_cases hba : b.toNat < a.toNat
        · simp [charListLeb, hab, hba] at h1
        · have heqn : a.toNat = b.toNat := by omega
          have heq : a = b := Char.ext (UInt32.ext heqn)
          have h1t : charListLeb as bs = true := by
            simpa [charListLeb, hab, hba] using h1
          have h2t : charListLeb bs as = true := by
            simpa [charListLeb, hab, hba] using h2
          rw [heq, ih bs h1t h2t]

instance instTotalStrLe : IsTotal String strLe :=
  ⟨fun a b => charListLeb_total a.data b.data⟩

instance instTransStrLe : IsTrans String strLe :=
  ⟨fun a b c => charListLeb_trans a.data b.data c.data⟩

instance instAntisymmStrLe : IsAntisymm String strLe :=
  ⟨fun a b h1 h2 => String.ext (charListLeb_antisymm a.data b.data h1 h2)⟩

/-- With unique keys, key lookup is invariant under permuting the entries. -/
lemma find?_key_perm {e1 e2 : List (String × String)} (hp : e1.Perm e2)
    (k : String) :
    (e1.map Prod.fst).Nodup →
      e1.find? (fun kv => kv.1 == k) = e2.find? (fun kv => kv.1 == k) := by
  induction hp with
  | nil => intro _; rfl
  | cons x h ih =>
    intro hn
    simp only [List.map_cons, List.nodup_cons] at hn
    simp only [List.find?_cons]
    cases hx : (x.1 == k)
    · exact ih hn.2
    · rfl
  | swap x y t =>
    intro hn
    simp only [List.map_cons, List.nodup_cons, List.mem_cons] at hn
    have hxy : y.1 ≠ x.1 := fun e => hn.1 (Or.inl e)
    simp only [List.find?_cons]
    cases hy : (y.1 == k) <;> cases hx : (x.1 == k) <;> try rfl
    exact absurd (by rw [beq_iff_eq] at hy hx; rw [hy, hx]) hxy
  | trans h1 h2 ih1 ih2 =>
    intro hn
    rw [ih1 hn, ih2 ((h1.map Prod.fst).nodup_iff.mp hn)]

/-- The ascending key list is determined by the set of entries alone. -/
lemma sortedKeys_perm {e1 e2 : List (String × String)} (hp : e1.Perm e2) :
    sortedKeys e1 = sortedKeys e2 := by
  exact @List.eq_of_perm_of_sorted String strLe instAntisymmStrLe _ _
    ((List.perm_insertionSort _ _).trans
      ((hp.map Prod.fst).trans (List.perm_insertionSort _ _).symm))
    (List.sorted_insertionSort _ _) (List.sorted_insertionSort _ _)

/-- With unique keys, the sorted value sequence is invariant under
permuting the entries. -/
lemma extraSignatureValues_perm {e1 e2 : List (String × String)}
    (hp : e1.Perm e2) (hn : (e1.map Prod.fst).Nodup) :
    extraSignatureValues e1 = extraSignatureValues e2 := by
  unfold extraSignatureValues
  rw [sortedKeys_perm hp]
  apply List.map_congr_left
  intro k _
  unfold lookupValue
  rw [find?_key_perm hp k hn]

/-- C5: the computed digest is a function of the set of `extra_params`
entries: two maps holding the same key/value entries in different iteration
orders (entry lists that are permutations of one another, keys unique)
produce the same signature. -/
theorem signature_order_independent (m a i pw : String)
    (e1 e2 : List (String × String)) (hp : e1.Perm e2)
    (hn : (e1.map Prod.fst).Nodup) :
    calculate_signature m a i pw e1 = calculate_signature m a i pw e2 := by
  unfold calculate_signature signatureString
  rw [extraSignatureValues_perm hp hn]

/-- C5, concrete instance: two orderings of the entries
`shp_a ↦ 1, shp_b ↦ 2` yield the same digest. -/
theorem signature_order_independent_witness :
    ([("shp_b", "2"), ("shp_a", "1")] : List (String × String)).Perm
        [("shp_a", "1"), ("shp_b", "2")]
    ∧ (([("shp_b", "2"), ("shp_a", "1")] : List (String × String)).map
        Prod.fst).Nodup
    ∧ calculate_signature "m" "100.0" "42" "pw" [("shp_b", "2"), ("shp_a", "1")]
        = calculate_signature "m" "100.0" "42" "pw"
            [("shp_a", "1"), ("shp_b", "2")] :=
  ⟨by decide, by decide,
   signature_order_independent "m" "100.0" "42" "pw"
     [("shp_b", "2"), ("shp_a", "1")] [("shp_a", "1"), ("shp_b", "2")]
     (by decide) (by decide)⟩

/-- C10: the digest depends only on the values taken in ascending key
order, never on the key names: any two `extra_params` maps with the same
sorted-by-key value sequence give the same digest and the same verification
verdict on every callback signature. -/
theorem signature_ignores_key_names (m a i pw sig : String)
    (e1 e2 : List (String × String))
    (h : extraSignatureValues e1 = extraSignatureValues e2) :
    calculate_signature m a i pw e1 = calculate_signature m a i pw e2
    ∧ verify_callback_signature m a i sig pw e1
        = verify_callback_signature m a i sig pw e2 := by
  have hc : calculate_signature m a i pw e1 = calculate_signature m a i pw e2 := by
    unfold calculate_signature signatureString
    rw [h]
  refine ⟨hc, ?_⟩
  unfold verify_callback_signature
  rw [hc]

/-- C10, concrete instance: renaming the keys `shp_a, shp_b` to
`shp_x, shp_y` (preserving their sort order) leaves both digest and
verification verdict unchanged. -/
theorem signature_ignores_key_names_witness :
    extraSignatureValues [("shp_a", "1"), ("shp_b", "2")]
        = extraSignatureValues [("shp_x", "1"), ("shp_y", "2")]
    ∧ (calculate_signature "m" "100.0" "42" "pw" [("shp_a", "1"), ("shp_b", "2")]
          = calculate_signature "m" "100.0" "42" "pw"
              [("shp_x", "1"), ("shp_y", "2")]
      ∧ verify_callback_signature "m" "100.0" "42" "sig" "pw"
            [("shp_a", "1"), ("shp_b", "2")]
          = verify_callback_signature "m" "100.0" "42" "sig" "pw"
              [("shp_x", "1"), ("shp_y", "2")]) :=
  ⟨by decide,
   signature_ignores_key_names "m" "100.0" "42" "pw" "sig"
     [("shp_a", "1"), ("shp_b", "2")] [("shp_x", "1"), ("shp_y", "2")]
     (by decide)⟩

set_option maxRecDepth 200000

/-- C3 counterexample: changing a single input—the key of the only
`extra_params` entry, from `shp_a` to `shp_b`—does not flip verification to
false: the digest computed over `shp_a ↦ v` still verifies against
`shp_b ↦ v`, because only the values (in sorted key order) enter the
signature string, never the key names. -/
theorem verify_accepts_changed_key :
    verify_callback_signature "m" "100.0" "42"
      (calculate_signature "m" "100.0" "42" "pw" [("shp_a", "v")]) "pw"
      [("shp_b", "v")] = true := by decide

/-- C3 amended: a digest always verifies against the tuple it was computed
over, and a digest computed over a changed tuple fails verification exactly
when the change alters the (lowercased) digest—as generic changes to
merchant id, amount, invoice id, secret or an extra-parameter value do by
altering the colon-joined preimage; a key-only change that keeps the value
sequence in sorted-key order leaves the digest, and hence acceptance,
unchanged. -/
theorem verify_roundtrip_and_flip (m a i pw m2 a2 i2 pw2 : String)
    (e e2 : List (String × String))
    (hd : strLower (calculate_signature m2 a2 i2 pw2 e2)
        ≠ strLower (calculate_signature m a i pw e)) :
    verify_callback_signature m a i (calculate_signature m a i pw e) pw e
        = true
    ∧ verify_callback_signature m a i (calculate_signature m2 a2 i2 pw2 e2)
        pw e = false := by
  constructor
  · simp [verify_callback_signature]
  · simp only [verify_callback_signature]
    rw [beq_eq_false_iff_ne]
    exact Ne.symm hd

/-- C3 amended, concrete instance: changing the invoice id from 42 to 43
changes the digest, and the stale digest is rejected while the matching one
is accepted. -/
theorem verify_roundtrip_and_flip_witness :
    strLower (calculate_signature "m" "100.0" "43" "pw" [])
        ≠ strLower (calculate_signature "m" "100.0" "42" "pw" [])
    ∧ (verify_callback_signature "m" "100.0" "42"
          (calculate_signature "m" "100.0" "42" "pw" []) "pw" [] = true
      ∧ verify_callback_signature "m" "100.0" "42"
          (calculate_signature "m" "100.0" "43" "pw" []) "pw" [] = false) :=
  ⟨by decide,
   verify_roundtrip_and_flip "m" "100.0" "42" "pw" "m" "100.0" "43" "pw" [] []
     (by decide)⟩

/-- C4: the success callback verifies against the primary password and the
fail and status callbacks against the secondary password; consequently,
whenever the two passwords yield different digests, a digest computed with
the secondary password is rejected by the success path and a digest
computed with the primary password is rejected by the fail and status
paths. -/
theorem callback_secret_asymmetry (c : RobokassaConfig) (m a i : String)
    (extra : List (String × String))
    (hd : strLower (calculate_signature m a i c.get_password2 extra)
        ≠ strLower (calculate_signature m a i c.get_password1 extra)) :
    (∀ sig, (process_success_callback c m a i sig extra).1
        = verify_callback_signature m a i sig c.get_password1 extra)
    ∧ (∀ sig, (process_fail_callback c m a i sig extra).1
        = verify_callback_signature m a i sig c.get_password2 extra)
    ∧ (∀ sig, (process_status_callback c m a i sig extra).1
        = verify_callback_signature m a i sig c.get_password2 extra)
    ∧ process_success_callback c m a i
        (calculate_signature m a i c.get_password2 extra) extra
        = (false, "Invalid signature")
    ∧ process_fail_callback c m a i
        (calculate_signature m a i c.get_password1 extra) extra
        = (false, "Invalid signature")
    ∧ process_status_callback c m a i
        (calculate_signature m a i c.get_password1 extra) extra
        = (false, "Invalid signature") := by
  have hv1 : verify_payment c m a i
      (calculate_signature m a i c.get_password2 extra) extra = false := by
    simp only [verify_payment, verify_callback_signature]
    rw [beq_eq_false_iff_ne]
    exact Ne.symm hd
  have hv2 : verify_payment_secondary c m a i
      (calculate_signature m a i c.get_password1 extra) extra = false := by
    simp only [verify_payment_secondary, verify_callback_signature]
    rw [beq_eq_false_iff_ne]
    exact hd
  refine ⟨?_, ?_, ?_, ?_, ?_, ?_⟩
  · intro sig
    cases h : verify_callback_signature m a i sig c.get_password1 extra <;>
      simp [process_success_callback, verify_payment, h]
  · intro sig
    cases h : verify_callback_signature m a i sig c.get_password2 extra <;>
      simp [process_fail_callback, verify_payment_secondary, h]
  · intro sig
    cases h : verify_callback_signature m a i sig c.get_password2 extra <;>
      simp [process_status_callback, verify_payment_secondary, h]
  · simp [process_success_callback, hv1]
  · simp [process_fail_callback, hv2]
  · simp [process_status_callback, hv2]

/-- C4, concrete instance: with passwords `p1` and `p2` the two digests
differ, so each cross-secret digest is rejected by the other path. -/
theorem callback_secret_asymmetry_witness :
    strLower (calculate_signature "m" "100.0" "42"
          sampleConfig.get_password2 [])
        ≠ strLower (calculate_signature "m" "100.0" "42"
          sampleConfig.get_password1 [])
    ∧ ((∀ sig, (process_success_callback sampleConfig "m" "100.0" "42" sig []).1
          = verify_callback_signature "m" "100.0" "42" sig
              sampleConfig.get_password1 [])
      ∧ (∀ sig, (process_fail_callback sampleConfig "m" "100.0" "42" sig []).1
          = verify_callback_signature "m" "100.0" "42" sig
              sampleConfig.get_password2 [])
      ∧ (∀ sig, (process_status_callback sampleConfig "m" "100.0" "42" sig []).1
          = verify_callback_signature "m" "100.0" "42" sig
              sampleConfig.get_password2 [])
      ∧ process_success_callback sampleConfig "m" "100.0" "42"
          (calculate_signature "m" "100.0" "42" sampleConfig.get_password2 []) []
          = (false, "Invalid signature")
      ∧ process_fail_callback sampleConfig "m" "100.0" "42"
          (calculate_signature "m" "100.0" "42" sampleConfig.get_password1 []) []
          = (false, "Invalid signature")
      ∧ process_status_callback sampleConfig "m" "100.0" "42"
          (calculate_signature "m" "100.0" "42" sampleConfig.get_password1 []) []
          = (false, "Invalid signature")) :=
  ⟨by decide,
   callback_secret_asymmetry sampleConfig "m" "100.0" "42" [] (by decide)⟩

/-- C7 counterexample: a 404 "not found" from the Lolz invoice query is
returned as a failed check (`success: false` with an error message), not as
status `pending`; and XRocet maps an unknown provider status (no payments
recorded, status not `"active"`) to `"expired"`, not to `"pending"`. -/
theorem not_found_not_pending :
    (lolz_check_payment_status ⟨404, none⟩).success = false
    ∧ (lolz_check_payment_status ⟨404, none⟩).status = none
    ∧ xrocet_check_payment ⟨200, true, "unknown", false⟩ = "expired" :=
  ⟨rfl, rfl, rfl⟩

/-- C7 amended: the Lolz decoder reports `paid` exactly when the provider
says `paid` and `pending` for every other status of a found invoice, but a
404 "not found" yields a failure result (which the loop treats as a no-op),
not `pending`; the XRocet decoder maps transport and API failures to
`pending` and reports `paid` exactly when the provider lists payments, but
maps an unknown non-`active` status to `expired` rather than `pending`. -/
theorem adapter_status_mapping (r : LolzCheckResponse)
    (x : XRocetCheckResponse) :
    (∀ s, r.httpStatus = 200 → r.invoice = some s →
      lolz_check_payment_status r
        = ⟨true, some (if s == "paid" then "paid" else "pending"), none⟩)
    ∧ (r.httpStatus = 404 →
        (lolz_check_payment_status r).success = false
        ∧ (lolz_check_payment_status r).status = none)
    ∧ (x.httpStatus ≠ 200 → xrocet_check_payment x = "pending")
    ∧ (x.apiSuccess = false → xrocet_check_payment x = "pending")
    ∧ (xrocet_check_payment x = "paid"
        ↔ x.httpStatus = 200 ∧ x.apiSuccess = true ∧ x.hasPayments = true)
    ∧ (x.httpStatus = 200 → x.apiSuccess = true → x.hasPayments = false →
        x.status ≠ "active" → xrocet_check_payment x = "expired") := by
  refine ⟨?_, ?_, ?_, ?_, ⟨?_, ?_⟩, ?_⟩
  · intro s h200 hinv
    simp [lolz_check_payment_status, h200, hinv]
  · intro h404
    constructor <;> simp [lolz_check_payment_status, h404]
  · intro h
    have hb : (x.httpStatus == 200) = false := by simpa using h
    simp [xrocet_check_payment, hb]
  · intro h
    by_cases h2 : x.httpStatus = 200 <;> simp [xrocet_check_payment, h2, h]
  · intro h
    by_cases h1 : x.httpStatus = 200
    · by_cases h2 : x.apiSuccess
      · by_cases h3 : x.hasPayments
        · exact ⟨h1, h2, h3⟩
        · exfalso
          by_cases h4 : x.status = "active" <;>
            simp [xrocet_check_payment, h1, h2, h3, h4] at h
      · simp [xrocet_check_payment, h1, h2] at h
    · simp [xrocet_check_payment, h1] at h
  · rintro ⟨h1, h2, h3⟩
    simp [xrocet_check_payment, h1, h2, h3]
  · intro h1 h2 h3 h4
    simp [xrocet_check_payment, h1, h2, h3, h4]

/-- C7 amended, concrete instance: a found paid Lolz invoice maps to
`paid`; an XRocet response with HTTP 500 maps to `pending`. -/
theorem adapter_status_mapping_witness :
    ((∀ s, (200 : Nat) = 200 → (some "paid" : Option String) = some s →
      lolz_check_payment_status ⟨200, some "paid"⟩
        = ⟨true, some (if s == "paid" then "paid" else "pending"), none⟩)
    ∧ ((200 : Nat) = 404 →
        (lolz_check_payment_status ⟨200, some "paid"⟩).success = false
        ∧ (lolz_check_payment_status ⟨200, some "paid"⟩).status = none)
    ∧ ((500 : Nat) ≠ 200 →
        xrocet_check_payment ⟨500, true, "active", false⟩ = "pending")
    ∧ (true = false →
        xrocet_check_payment ⟨500, true, "active", false⟩ = "pending")
    ∧ (xrocet_check_payment ⟨500, true, "active", false⟩ = "paid"
        ↔ (500 : Nat) = 200 ∧ true = true ∧ false = true)
    ∧ ((500 : Nat) = 200 → true = true → false = false →
        "active" ≠ "active" →
        xrocet_check_payment ⟨500, true, "active", false⟩ = "expired")) :=
  adapter_status_mapping ⟨200, some "paid"⟩ ⟨500, true, "active", false⟩

end PaymentCore
